import Mathlib

/-!
Verification development for the connvy state-management core.

The data model and operations below are shallow embeddings of the
TypeScript sources: `StoreInst` embeds `StoreInstanceImpl`
(src/unnamed/part_005), `ReadOnlyStoreInst` embeds
`ReadOnlyStoreInstanceImpl` (src/packages/connvy/src/stores/readOnlyStoreInstance.ts),
and `ConnvyApp.select` embeds `ConnvyApp.select`
(src/packages/connvy/src/app.ts). The action engine's locking, cloning,
commit and cancellation are referenced by `useActions.cancel`
(src/unnamed/part_002) and by the test suite but their implementation is
not among the provided sources; those definitions are modelled from the
spec and say so in their doc comments.

JavaScript exceptions are embedded as explicit results: a mutating store
method returns the store state at the moment control returns together
with an `Except` result, so "the collection is unchanged when the call
throws" is a theorem about the embedding, not an artifact of it.
-/

namespace Connvy

/-- Literal parameter values captured by an action invocation (used for
diagnostics in `OngoingActionError`). -/
inductive JSLit where
  | str (s : String)
  | num (n : Int)
  | bool (b : Bool)
deriving DecidableEq, Repr

/-- Error taxonomy of the library, from src/packages/connvy/src/errors.ts.
`validationError` stands for the external schema collaborator's failure. -/
inductive ConnvyError where
  | validationError (msg : String)
  | itemNotFoundInStore (storeName method : String) (index collectionSize : Nat)
  | itemNotMatchedInStore (storeName : String)
  | storeIsReadOnly (storeName method : String)
  | attemptingToWriteFromSelector (storeName method : String)
  | selectorCantBeAsync
  | storeIsLocked (storeName : String)
  | ongoingActionError (ongoingName : String) (ongoingParams : List JSLit)
      (incomingName : String) (incomingParams : List JSLit)
deriving DecidableEq, Repr

/-- JavaScript values as far as the embedded code inspects them: thrown
values may be anything, selector results may be promises, and the select
path checks truthiness and `instanceof`. -/
inductive JSValue where
  | vNull
  | vUndefined
  | vBool (b : Bool)
  | vNum (n : Int)
  | vStr (s : String)
  | vErr (e : ConnvyError)
  | vPromise (id : Nat)
deriving DecidableEq, Repr

/-- JavaScript truthiness, as used by `if (error && ...)` in select. -/
def JSValue.truthy : JSValue → Bool
  | .vNull => false
  | .vUndefined => false
  | .vBool b => b
  | .vNum n => decide (n ≠ 0)
  | .vStr s => decide (s ≠ "")
  | .vErr _ => true
  | .vPromise _ => true

/-- Check `result instanceof Promise`. -/
def JSValue.isPromise : JSValue → Bool
  | .vPromise _ => true
  | _ => false

/-- Check `error instanceof StoreIsReadOnlyError` and extract the store
name and method the error carries. -/
def JSValue.asReadOnlyErr : JSValue → Option (String × String)
  | .vErr (.storeIsReadOnly n m) => some (n, m)
  | _ => none

/-- Embedding of `StoreInstanceImpl` (src/unnamed/part_005): an ordered
collection of validated records, a lock flag, a schema parser, and the
event emitter's subscriber list (subscribers are carried only so that
clone's "fresh emitter" behavior is observable). -/
structure StoreInst (α : Type) where
  storeName : String
  parseSchema : α → Except ConnvyError α
  collection : List α
  locked : Bool
  subscribers : List Nat

namespace StoreInst

variable {α : Type}

/-- Embedding of `assertNotLocked`. -/
def assertNotLocked (s : StoreInst α) : Except ConnvyError Unit :=
  if s.locked then .error (.storeIsLocked s.storeName) else .ok ()

/-- Embedding of `create`: lock check, validate, push. -/
def create (s : StoreInst α) (e : α) : StoreInst α × Except ConnvyError α :=
  match s.assertNotLocked with
  | .error err => (s, .error err)
  | .ok _ =>
    match s.parseSchema e with
    | .error err => (s, .error err)
    | .ok v => ({ s with collection := s.collection ++ [v] }, .ok v)

/-- Embedding of `get`: index lookup with optional fallback. -/
def get (s : StoreInst α) (i : Nat) (fallback : Option α) : Except ConnvyError α :=
  if h : i < s.collection.length then
    .ok (s.collection.get ⟨i, h⟩)
  else
    match fallback with
    | some fb => .ok fb
    | none => .error (.itemNotFoundInStore s.storeName "get" i s.collection.length)

/-- Embedding of `getBy`: first match with optional fallback. -/
def getBy (s : StoreInst α) (matcher : α → Bool) (fallback : Option α) :
    Except ConnvyError α :=
  match s.collection.find? matcher with
  | some v => .ok v
  | none =>
    match fallback with
    | some fb => .ok fb
    | none => .error (.itemNotMatchedInStore s.storeName)

/-- Embedding of `list` (content view; the freshness of the returned
array is treated separately in the heap model below). -/
def list (s : StoreInst α) : List α := s.collection

/-- Embedding of `listBy`. -/
def listBy (s : StoreInst α) (matcher : α → Bool) : List α :=
  s.collection.filter matcher

/-- Embedding of `update`: lock check, then index check, then validate
the merged record, and only then commit it in place. The partial update
is embedded as the merge function `u`. -/
def update (s : StoreInst α) (i : Nat) (u : α → α) : StoreInst α × Except ConnvyError α :=
  match s.assertNotLocked with
  | .error err => (s, .error err)
  | .ok _ =>
    if h : i < s.collection.length then
      match s.parseSchema (u (s.collection.get ⟨i, h⟩)) with
      | .error err => (s, .error err)
      | .ok v => ({ s with collection := s.collection.set i v }, .ok v)
    else
      (s, .error (.itemNotFoundInStore s.storeName "update" i s.collection.length))

/-- Helper for `updateAllWhere`: the `forEach` loop updates matching
records in place one at a time, so a validation failure aborts the loop
with the earlier updates retained. -/
def updateAllWhereGo (parse : α → Except ConnvyError α) (matcher : α → Bool)
    (u : α → α) : List α → List α × Nat × Option ConnvyError
  | [] => ([], 0, none)
  | x :: xs =>
    if matcher x then
      match parse (u x) with
      | .error e => (x :: xs, 0, some e)
      | .ok v =>
        let r := updateAllWhereGo parse matcher u xs
        (v :: r.1, r.2.1 + 1, r.2.2)
    else
      let r := updateAllWhereGo parse matcher u xs
      (x :: r.1, r.2.1, r.2.2)

/-- Embedding of `updateAllWhere`. -/
def updateAllWhere (s : StoreInst α) (matcher : α → Bool) (u : α → α) :
    StoreInst α × Except ConnvyError Nat :=
  match s.assertNotLocked with
  | .error err => (s, .error err)
  | .ok _ =>
    let r := updateAllWhereGo s.parseSchema matcher u s.collection
    match r.2.2 with
    | some e => ({ s with collection := r.1 }, .error e)
    | none => ({ s with collection := r.1 }, .ok r.2.1)

/-- Embedding of `replace`: lock check, index check, validate, set. -/
def replace (s : StoreInst α) (i : Nat) (e : α) : StoreInst α × Except ConnvyError α :=
  match s.assertNotLocked with
  | .error err => (s, .error err)
  | .ok _ =>
    if i < s.collection.length then
      match s.parseSchema e with
      | .error err => (s, .error err)
      | .ok v => ({ s with collection := s.collection.set i v }, .ok v)
    else
      (s, .error (.itemNotFoundInStore s.storeName "replace" i s.collection.length))

/-- Embedding of `delete`: lock check, then splice or fail. -/
def del (s : StoreInst α) (i : Nat) : StoreInst α × Except ConnvyError Unit :=
  match s.assertNotLocked with
  | .error err => (s, .error err)
  | .ok _ =>
    if i < s.collection.length then
      ({ s with collection := s.collection.eraseIdx i }, .ok ())
    else
      (s, .error (.itemNotFoundInStore s.storeName "delete" i s.collection.length))

/-- Embedding of `deleteAllWhere`. -/
def deleteAllWhere (s : StoreInst α) (matcher : α → Bool) :
    StoreInst α × Except ConnvyError Nat :=
  match s.assertNotLocked with
  | .error err => (s, .error err)
  | .ok _ =>
    let kept := s.collection.filter (fun x => ! matcher x)
    ({ s with collection := kept }, .ok (s.collection.length - kept.length))

/-- Embedding of `merge`: lock check on the receiver, then the record
sequence is replaced wholesale by the source's list. -/
def merge (s : StoreInst α) (src : StoreInst α) : StoreInst α × Except ConnvyError Unit :=
  match s.assertNotLocked with
  | .error err => (s, .error err)
  | .ok _ => ({ s with collection := src.list }, .ok ())

/-- Embedding of the constructor: fresh instance, empty collection,
unlocked, fresh emitter. -/
def newInst (storeName : String) (parse : α → Except ConnvyError α) : StoreInst α :=
  { storeName := storeName, parseSchema := parse, collection := [], locked := false,
    subscribers := [] }

/-- Embedding of `clone` without a caller-supplied subtype: a fresh
instance is constructed and then `merge`d from the receiver. -/
def clone (s : StoreInst α) : StoreInst α :=
  ((newInst s.storeName s.parseSchema).merge s).1

/-- Embedding of `lock`. -/
def lock (s : StoreInst α) : StoreInst α := { s with locked := true }

/-- Embedding of `unlock`. -/
def unlock (s : StoreInst α) : StoreInst α := { s with locked := false }

end StoreInst

/-- Embedding of `ReadOnlyStoreInstanceImpl`
(src/packages/connvy/src/stores/readOnlyStoreInstance.ts): a subclass of
`StoreInstanceImpl` wrapping the same data. The subclass overrides
`create`, `update`, `updateAllWhere`, `delete` and `deleteAllWhere` to
throw `StoreIsReadOnlyError`; every other method, including `replace`
and `merge`, is inherited unchanged. -/
structure ReadOnlyStoreInst (α : Type) where
  toStoreInst : StoreInst α

namespace ReadOnlyStoreInst

variable {α : Type}

/-- Override of `create`: throws `StoreIsReadOnlyError`, touches nothing. -/
def create (r : ReadOnlyStoreInst α) (_e : α) :
    ReadOnlyStoreInst α × Except ConnvyError α :=
  (r, .error (.storeIsReadOnly r.toStoreInst.storeName "create"))

/-- Override of `update`: throws `StoreIsReadOnlyError`, touches nothing. -/
def update (r : ReadOnlyStoreInst α) (_i : Nat) (_u : α → α) :
    ReadOnlyStoreInst α × Except ConnvyError α :=
  (r, .error (.storeIsReadOnly r.toStoreInst.storeName "update"))

/-- Override of `updateAllWhere`: throws `StoreIsReadOnlyError`. -/
def updateAllWhere (r : ReadOnlyStoreInst α) (_m : α → Bool) (_u : α → α) :
    ReadOnlyStoreInst α × Except ConnvyError Nat :=
  (r, .error (.storeIsReadOnly r.toStoreInst.storeName "updateAllWhere"))

/-- Override of `delete`: throws `StoreIsReadOnlyError`, touches nothing. -/
def del (r : ReadOnlyStoreInst α) (_i : Nat) :
    ReadOnlyStoreInst α × Except ConnvyError Unit :=
  (r, .error (.storeIsReadOnly r.toStoreInst.storeName "delete"))

/-- Override of `deleteAllWhere`: throws `StoreIsReadOnlyError`. -/
def deleteAllWhere (r : ReadOnlyStoreInst α) (_m : α → Bool) :
    ReadOnlyStoreInst α × Except ConnvyError Nat :=
  (r, .error (.storeIsReadOnly r.toStoreInst.storeName "deleteAllWhere"))

/-- Inherited `replace`: the subclass does not override it, so it runs
the base class implementation against the instance's own data. -/
def replace (r : ReadOnlyStoreInst α) (i : Nat) (e : α) :
    ReadOnlyStoreInst α × Except ConnvyError α :=
  let p := r.toStoreInst.replace i e
  (⟨p.1⟩, p.2)

/-- Inherited `merge` (this is the method `clone` relies on to populate
a read-only clone). -/
def merge (r : ReadOnlyStoreInst α) (src : StoreInst α) :
    ReadOnlyStoreInst α × Except ConnvyError Unit :=
  let p := r.toStoreInst.merge src
  (⟨p.1⟩, p.2)

/-- Inherited `get`. -/
def get (r : ReadOnlyStoreInst α) (i : Nat) (fallback : Option α) :
    Except ConnvyError α :=
  r.toStoreInst.get i fallback

/-- Inherited `list`. -/
def list (r : ReadOnlyStoreInst α) : List α := r.toStoreInst.list

/-- Inherited `listBy`. -/
def listBy (r : ReadOnlyStoreInst α) (matcher : α → Bool) : List α :=
  r.toStoreInst.listBy matcher

end ReadOnlyStoreInst

/-- Embedding of `collectStoreInstanceAsReadOnly`'s per-store step
(src/packages/connvy/src/app.ts): the live instance's `clone` is called
with a factory producing a fresh `ReadOnlyStoreInstanceImpl`, which is
then populated via the inherited `merge`. -/
def readOnlyClone {α : Type} (s : StoreInst α) : ReadOnlyStoreInst α :=
  (ReadOnlyStoreInst.merge ⟨StoreInst.newInst s.storeName s.parseSchema⟩ s).1

/-- Lifecycle states of the Action State Record
(src/packages/connvy/src/actions/types.ts). -/
inductive ActionLifecycle where
  | idle
  | ongoing
  | err
  | completed
  | canceled
deriving DecidableEq, Repr

/-- One row of the Action State Record store. -/
structure ActionStateRec where
  state : ActionLifecycle
  actionName : String
  errorVal : Option JSValue
deriving DecidableEq, Repr

/-- Outcome of invoking a selector's function: it either returns a value
(possibly a Promise) or throws a value. -/
inductive SelectOutcome where
  | ret (v : JSValue)
  | threw (v : JSValue)

/-- Embedding of a selector invocation record
(src/packages/connvy/src/selectors/types.ts): captured store
dependencies (by id), optional fallback, and the user function, embedded
as its observable outcome against the resolved read-only views. -/
structure Selector (α : Type) where
  stores : List Nat
  fallback : Option JSValue
  run : (Nat → ReadOnlyStoreInst α) → SelectOutcome

/-- Embedding of an action invocation record
(src/packages/connvy/src/actions/types.ts): name, captured params, and
dependency store ids. Distinct invocations carry distinct ids, embedding
the by-reference identity of the JavaScript action object that the
engine's marker comparison relies on. -/
structure ActionInst where
  id : Nat
  name : String
  params : List JSLit
  stores : List Nat
deriving DecidableEq, Repr

/-- Embedding of `ConnvyApp`'s state (src/packages/connvy/src/app.ts):
the registry of store instances (embedded as a total map over store
ids), the single ongoing-action marker, and the Action State Record
store's collection, kept as its own list. -/
structure ConnvyApp (α : Type) where
  stores : Nat → StoreInst α
  ongoingAction : Option ActionInst
  actionStates : List ActionStateRec

namespace ConnvyApp

variable {α : Type}

/-- Embedding of `updateActionState`: `replace(0, st)` on the action
state store, falling back to `create(st)` when index 0 does not exist
(the store is never locked and its schema accepts every row). -/
def updateActionState (l : List ActionStateRec) (st : ActionStateRec) :
    List ActionStateRec :=
  match l with
  | [] => [st]
  | _ :: tail => st :: tail

/-- Embedding of `collectStoreInstanceAsReadOnly`: each dependency is
resolved to a read-only clone of the live instance. -/
def resolveReadOnly (app : ConnvyApp α) : Nat → ReadOnlyStoreInst α :=
  fun sid => readOnlyClone (app.stores sid)

/-- Embedding of `ConnvyApp.select` (src/packages/connvy/src/app.ts):
run the selector against read-only clones, catch a thrown value into the
error slot, then fail hard on a Promise result, then re-signal a
read-only write as `AttemptingToWriteFromSelectorError`, then substitute
the fallback when the error slot is truthy and a fallback was declared. -/
def select (app : ConnvyApp α) (sel : Selector α) :
    Except ConnvyError (JSValue × JSValue) :=
  let outcome := sel.run (resolveReadOnly app)
  let result : JSValue := match outcome with
    | .ret v => v
    | .threw _ => .vNull
  let errSlot : JSValue := match outcome with
    | .ret _ => .vNull
    | .threw v => v
  if result.isPromise then
    .error .selectorCantBeAsync
  else
    match errSlot.asReadOnlyErr with
    | some p => .error (.attemptingToWriteFromSelector p.1 p.2)
    | none =>
      match sel.fallback with
      | some fb => if errSlot.truthy then .ok (fb, .vNull) else .ok (result, errSlot)
      | none => .ok (result, errSlot)

/-- Modelled from the spec: lock every Collection referenced by the
action's dependencies (spec section 4.5 step 2). The action engine
revision that performs this locking is invoked by `useActions.cancel`
(src/unnamed/part_002) and exercised by the test suite, but its
implementation is not among the provided sources; the store-level `lock`
it calls is the source `StoreInstanceImpl.lock` (src/unnamed/part_005). -/
def lockStores (deps : List Nat) (f : Nat → StoreInst α) : Nat → StoreInst α :=
  fun sid => if sid ∈ deps then (f sid).lock else f sid

/-- Modelled from the spec: unlock the affected Collections at
settlement (spec section 4.5 steps 5 and 6). -/
def unlockStores (deps : List Nat) (f : Nat → StoreInst α) : Nat → StoreInst α :=
  fun sid => if sid ∈ deps then (f sid).unlock else f sid

/-- Modelled from the spec: resolve dependencies in full-clone mode —
a private copy of each affected Collection is handed to the action's
function (spec section 4.5 step 3). The per-store `clone` is the source
`StoreInstanceImpl.clone` (src/unnamed/part_005). -/
def cloneStores (deps : List Nat) (f : Nat → StoreInst α) : Nat → StoreInst α :=
  fun sid => if sid ∈ deps then (f sid).clone else f sid

/-- Modelled from the spec: merge each clone back into its corresponding
live Collection at successful settlement (spec section 4.5 step 6),
using the source `StoreInstanceImpl.merge` (src/unnamed/part_005). -/
def mergeStores (deps : List Nat) (live clones : Nat → StoreInst α) :
    Nat → StoreInst α :=
  fun sid => if sid ∈ deps then ((live sid).merge (clones sid)).1 else live sid

/-- Modelled from the spec: the synchronous prefix of `run(action)`
(spec section 4.5 steps 1 to 3). The ongoing-action check, the marker
assignment and the ONGOING record update are taken verbatim from the
source `ConnvyApp.runAction` (src/packages/connvy/src/app.ts); the
locking and full-clone resolution that follow are the part missing from
the provided sources. Fails with `OngoingActionError` carrying both
actions before touching anything when an action is already ongoing. -/
def startedApp (app : ConnvyApp α) (a : ActionInst) : ConnvyApp α :=
  { stores := lockStores a.stores app.stores,
    ongoingAction := some a,
    actionStates :=
      updateActionState app.actionStates
        { state := .ongoing, actionName := a.name, errorVal := none } }

/-- Modelled from the spec: the clones handed to the action's function
when the start prefix succeeds (spec section 4.5 step 3). -/
def startedClones (app : ConnvyApp α) (a : ActionInst) : Nat → StoreInst α :=
  cloneStores a.stores (lockStores a.stores app.stores)

/-- Modelled from the spec: the guard of `run(action)` (spec section 4.5
step 1), from the source `ConnvyApp.runAction`
(src/packages/connvy/src/app.ts): when an action is already ongoing, the
call fails with `OngoingActionError` carrying both actions before
touching anything; otherwise the start prefix runs. -/
def runActionStart (app : ConnvyApp α) (a : ActionInst) :
    Except ConnvyError (ConnvyApp α × (Nat → StoreInst α)) :=
  match app.ongoingAction with
  | some o => .error (.ongoingActionError o.name o.params a.name a.params)
  | none => .ok (startedApp app a, startedClones app a)

/-- Modelled from the spec: settlement of an action (spec section 4.5
steps 5 to 7). Before applying any side effect, the ongoing-action
marker is compared against this exact action instance; on a mismatch
(the action was canceled in the interim) everything is skipped and the
clones are silently discarded. Otherwise the affected Collections are
unlocked, then: on failure the clones are discarded, the record is set
to ERROR with the thrown value, the marker is cleared and the error is
re-surfaced; on success each clone is merged into its live Collection,
the record is set to COMPLETED and the marker is cleared. The ERROR and
COMPLETED record updates and the re-throw mirror the `andThen` callback
of the source `ConnvyApp.runAction` (src/packages/connvy/src/app.ts). -/
def settleAction (app : ConnvyApp α) (a : ActionInst)
    (clones : Nat → StoreInst α) (failure : Option JSValue) :
    ConnvyApp α × Option JSValue :=
  if app.ongoingAction = some a then
    let unlocked := unlockStores a.stores app.stores
    match failure with
    | some e =>
      ({ stores := unlocked,
         ongoingAction := none,
         actionStates :=
           updateActionState app.actionStates
             { state := .err, actionName := a.name, errorVal := some e } },
       some e)
    | none =>
      ({ stores := mergeStores a.stores unlocked clones,
         ongoingAction := none,
         actionStates :=
           updateActionState app.actionStates
             { state := .completed, actionName := a.name, errorVal := none } },
       none)
  else
    (app, none)

/-- Modelled from the spec: `cancelAction({ onlyIf })` — the method
`useActions.cancel` (src/unnamed/part_002) calls on the app. If there is
an ongoing action and the predicate accepts its name, the Action State
Record transitions to CANCELED naming that action and the ongoing-action
marker is cleared immediately; otherwise nothing happens. -/
def cancelAction (app : ConnvyApp α) (onlyIf : String → Bool) : ConnvyApp α :=
  match app.ongoingAction with
  | some a =>
    if onlyIf a.name then
      { app with
        ongoingAction := none,
        actionStates :=
          updateActionState app.actionStates
            { state := .canceled, actionName := a.name, errorVal := none } }
    else app
  | none => app

/-- Synchronous `run(action)` pipeline: the start prefix, then the
action's function acting on its clones, then settlement. The function is
embedded as `body`, mapping the cloned stores to their final state plus
an optional thrown value. A start failure re-surfaces the error with the
app untouched, mirroring the synchronous throw in the source
`ConnvyApp.runAction` (src/packages/connvy/src/app.ts). -/
def runAction (app : ConnvyApp α) (a : ActionInst)
    (body : (Nat → StoreInst α) → (Nat → StoreInst α) × Option JSValue) :
    ConnvyApp α × Option JSValue :=
  match runActionStart app a with
  | .error e => (app, some (.vErr e))
  | .ok (app1, clones) =>
    let r := body clones
    settleAction app1 a r.1 r.2

end ConnvyApp

variable {α : Type}

/-- Argument accepted by `useActions.cancel` (src/unnamed/part_002): no
filter, one action factory, or a list of factories. -/
inductive CancelArg where
  | all
  | one (name : String)
  | many (names : List String)

/-- Embedding of `shouldCancelAction` inside `useActions.cancel`
(src/unnamed/part_002). -/
def shouldCancelAction : CancelArg → String → Bool
  | .all, _ => true
  | .one n, actionName => n == actionName
  | .many ns, actionName => ns.any (fun x => x == actionName)

/-- Embedding of `useActions.cancel` (src/unnamed/part_002): delegate to
the app's `cancelAction` with the name filter. -/
def cancelViaHook (app : ConnvyApp α) (arg : CancelArg) : ConnvyApp α :=
  app.cancelAction (shouldCancelAction arg)

/-- Mutating store method invocations available to callers outside an
action (through `useStore`), embedding the write API of
`StoreInstanceImpl` (src/unnamed/part_005). -/
inductive WriteOp (α : Type) where
  | wCreate (e : α)
  | wUpdate (i : Nat) (u : α → α)
  | wUpdateAllWhere (m : α → Bool) (u : α → α)
  | wReplace (i : Nat) (e : α)
  | wDelete (i : Nat)
  | wDeleteAllWhere (m : α → Bool)

/-- Apply a mutating method to a live store instance, keeping the
resulting state and whether the call threw. -/
def applyWrite (s : StoreInst α) : WriteOp α → StoreInst α × Except ConnvyError Unit
  | .wCreate e => let p := s.create e; (p.1, p.2.map fun _ => ())
  | .wUpdate i u => let p := s.update i u; (p.1, p.2.map fun _ => ())
  | .wUpdateAllWhere m u => let p := s.updateAllWhere m u; (p.1, p.2.map fun _ => ())
  | .wReplace i e => let p := s.replace i e; (p.1, p.2.map fun _ => ())
  | .wDelete i => let p := s.del i; (p.1, p.2.map fun _ => ())
  | .wDeleteAllWhere m => let p := s.deleteAllWhere m; (p.1, p.2.map fun _ => ())

/-- Operations that other callers can interleave while an action is
suspended: a write attempt against a live store, a cancellation, a
second `run`, or a stale settlement callback of some other action
instance firing. -/
inductive InterimOp (α : Type) where
  | write (sid : Nat) (w : WriteOp α)
  | cancelOp (arg : CancelArg)
  | runOther (b : ActionInst)
      (body : (Nat → StoreInst α) → (Nat → StoreInst α) × Option JSValue)
  | settleOther (b : ActionInst) (clones : Nat → StoreInst α)
      (failure : Option JSValue)

/-- Effect of one interleaved operation on the app state (thrown values
propagate to the interleaved caller and are irrelevant to the state). -/
def stepInterim (app : ConnvyApp α) : InterimOp α → ConnvyApp α
  | .write sid w =>
    { app with
      stores := fun j => if j = sid then (applyWrite (app.stores sid) w).1 else app.stores j }
  | .cancelOp arg => cancelViaHook app arg
  | .runOther b body => (ConnvyApp.runAction app b body).1
  | .settleOther b clones failure => (ConnvyApp.settleAction app b clones failure).1

/-- Effect of a sequence of interleaved operations. -/
def runInterim (app : ConnvyApp α) (ops : List (InterimOp α)) : ConnvyApp α :=
  ops.foldl stepInterim app

/-- An interleaved operation that does not settle the ongoing action
`a`: it is not a cancellation matching `a`'s name and not `a`'s own
settlement callback. -/
def PreservesAction (a : ActionInst) : InterimOp α → Prop
  | .cancelOp arg => shouldCancelAction arg a.name = false
  | .settleOther b _ _ => b ≠ a
  | _ => True

/-- Heap of JavaScript arrays, for stating aliasing facts about the
arrays `list` and `listBy` return. A reference is an index; reading an
unallocated reference yields the empty array. -/
structure JSHeap (α : Type) where
  next : Nat
  cells : Nat → List α

namespace JSHeap

/-- Allocate a fresh array holding `xs`, returning the new heap and the
fresh reference. -/
def alloc (h : JSHeap α) (xs : List α) : JSHeap α × Nat :=
  ({ next := h.next + 1,
     cells := fun r => if r = h.next then xs else h.cells r },
   h.next)

/-- Read the array behind a reference. -/
def read (h : JSHeap α) (r : Nat) : List α := h.cells r

/-- Overwrite the array behind a reference in place (any caller-side
mutation of a returned array — push, splice, reorder — is some such
overwrite of its contents). -/
def write (h : JSHeap α) (r : Nat) (xs : List α) : JSHeap α :=
  { h with cells := fun j => if j = r then xs else h.cells j }

end JSHeap

instance {ε β : Type} [DecidableEq ε] [DecidableEq β] : DecidableEq (Except ε β) :=
  fun a b =>
    match a, b with
    | .ok x, .ok y =>
      if h : x = y then isTrue (congrArg Except.ok h)
      else isFalse (fun hc => h (Except.ok.inj hc))
    | .error x, .error y =>
      if h : x = y then isTrue (congrArg Except.error h)
      else isFalse (fun hc => h (Except.error.inj hc))
    | .ok _, .error _ => isFalse (fun hc => Except.noConfusion hc)
    | .error _, .ok _ => isFalse (fun hc => Except.noConfusion hc)

/-- Heap-level embedding of `StoreInstanceImpl.list`
(src/unnamed/part_005): the spread `[...this.collection]` allocates a
fresh array holding a copy of the backing collection's contents and
returns a reference to it. -/
def storeListH (h : JSHeap α) (collectionRef : Nat) : JSHeap α × Nat :=
  h.alloc (h.read collectionRef)

/-- Heap-level embedding of `StoreInstanceImpl.listBy`
(src/unnamed/part_005): `Array.prototype.filter` likewise allocates a
fresh result array. -/
def storeListByH (h : JSHeap α) (collectionRef : Nat) (matcher : α → Bool) :
    JSHeap α × Nat :=
  h.alloc ((h.read collectionRef).filter matcher)

/-!
Concrete fixtures used by witnesses and counterexamples: a schema
collaborator over `Nat` accepting values below 100, and a small store.
-/

/-- Sample schema collaborator: records below 100 validate. -/
def natParser : Nat → Except ConnvyError Nat :=
  fun n => if n < 100 then .ok n else .error (.validationError "too big")

/-- Sample live store instance. -/
def sampleStore : StoreInst Nat :=
  { storeName := "todos", parseSchema := natParser, collection := [1, 2],
    locked := false, subscribers := [] }

/-- Sample app: every store id resolves to `sampleStore`, nothing
ongoing, empty action state store. -/
def sampleApp : ConnvyApp Nat :=
  { stores := fun _ => sampleStore, ongoingAction := none, actionStates := [] }

/-- The single-row update always leaves the new row at index 0. -/
theorem updateActionState_head (l : List ActionStateRec) (st : ActionStateRec) :
    (ConnvyApp.updateActionState l st).head? = some st := by
  cases l <;> rfl

/-- A mutating method invoked on a locked store throws `StoreIsLockedError`
and leaves the instance untouched. -/
theorem applyWrite_locked (s : StoreInst α) (w : WriteOp α) (hl : s.locked = true) :
    applyWrite s w = (s, .error (.storeIsLocked s.storeName)) := by
  cases w <;>
    simp [applyWrite, StoreInst.create, StoreInst.update, StoreInst.updateAllWhere,
      StoreInst.replace, StoreInst.del, StoreInst.deleteAllWhere,
      StoreInst.assertNotLocked, hl, Except.map]

/-- Claim C8: for every collection, index i, and partial update u,
`update(i, u)` merges u into the record at i and re-validates the merged
result before committing; if validation fails, the call fails with
`ValidationError` and the record at i (and the whole collection) is
unchanged; if i is out of range, the call fails with `NotFoundError` and
the collection is unchanged. (Stated for an unlocked collection; a
locked one rejects every mutation up front.) -/
theorem update_merges_validates_commits (s : StoreInst α) (i : Nat) (u : α → α)
    (hlock : s.locked = false) :
    (∀ (h : i < s.collection.length) (v : α),
        s.parseSchema (u (s.collection.get ⟨i, h⟩)) = .ok v →
        s.update i u = ({ s with collection := s.collection.set i v }, .ok v)) ∧
    (∀ (h : i < s.collection.length) (e : ConnvyError),
        s.parseSchema (u (s.collection.get ⟨i, h⟩)) = .error e →
        s.update i u = (s, .error e)) ∧
    (s.collection.length ≤ i →
        s.update i u =
          (s, .error (.itemNotFoundInStore s.storeName "update" i s.collection.length))) := by
  refine ⟨?_, ?_, ?_⟩
  · intro h v hv
    simp only [List.get_eq_getElem] at hv
    simp [StoreInst.update, StoreInst.assertNotLocked, hlock, dif_pos h, hv]
  · intro h e he
    simp only [List.get_eq_getElem] at he
    simp [StoreInst.update, StoreInst.assertNotLocked, hlock, dif_pos h, he]
  · intro h
    have hn : ¬ i < s.collection.length := by omega
    simp [StoreInst.update, StoreInst.assertNotLocked, hlock, dif_neg hn]

/-- Witness for C8: on the sample store, a valid merge commits, an
invalid merge throws `ValidationError` leaving the store untouched, and
an out-of-range index throws `NotFoundError`. -/
theorem update_merges_validates_commits_witness :
    sampleStore.update 0 (fun n => n + 10) =
      ({ sampleStore with collection := [11, 2] }, .ok 11) ∧
    sampleStore.update 0 (fun n => n + 200) =
      (sampleStore, .error (.validationError "too big")) ∧
    sampleStore.update 5 (fun n => n) =
      (sampleStore, .error (.itemNotFoundInStore "todos" "update" 5 2)) :=
  ⟨(update_merges_validates_commits sampleStore 0 (fun n => n + 10) rfl).1
      (by decide) 11 rfl,
   (update_merges_validates_commits sampleStore 0 (fun n => n + 200) rfl).2.1
      (by decide) (.validationError "too big") rfl,
   (update_merges_validates_commits sampleStore 5 (fun n => n) rfl).2.2
      (by decide)⟩

/-- Claim C9: for every unlocked collection C, `clone()` followed
immediately by `merge()` of the clone back into C yields a collection
whose record list is identical to C's original record list; the clone
contains a snapshot copy of C's records but not C's lock state or
subscribers. -/
theorem clone_merge_roundtrip (s : StoreInst α) (hlock : s.locked = false) :
    s.clone.collection = s.collection ∧
    s.clone.locked = false ∧
    s.clone.subscribers = [] ∧
    (s.merge s.clone).2 = .ok () ∧
    ((s.merge s.clone).1).collection = s.collection := by
  simp [StoreInst.clone, StoreInst.merge, StoreInst.newInst,
    StoreInst.assertNotLocked, StoreInst.list, hlock]

/-- Witness for C9 on the sample store. -/
theorem clone_merge_roundtrip_witness :
    sampleStore.clone.collection = [1, 2] ∧
    sampleStore.clone.locked = false ∧
    sampleStore.clone.subscribers = [] ∧
    (sampleStore.merge sampleStore.clone).2 = .ok () ∧
    ((sampleStore.merge sampleStore.clone).1).collection = [1, 2] :=
  ⟨(clone_merge_roundtrip sampleStore rfl).1,
   (clone_merge_roundtrip sampleStore rfl).2.1,
   (clone_merge_roundtrip sampleStore rfl).2.2.1,
   (clone_merge_roundtrip sampleStore rfl).2.2.2.1,
   (clone_merge_roundtrip sampleStore rfl).2.2.2.2⟩

/-- Claim C10: `list()` and `listBy(predicate)` return a fresh array on
each call: mutating the returned array never changes the collection's
stored record sequence, and a subsequent `list()` is unaffected by such
mutation. Stated over the array heap: the returned reference is distinct
from the backing reference, carries a copy of the contents, and
overwriting it leaves the backing array — and the contents of any later
`list()` — unchanged. -/
theorem list_returns_fresh_array (h : JSHeap α) (ref : Nat) (m : α → Bool)
    (xs ys : List α) (href : ref < h.next) :
    (storeListH h ref).2 ≠ ref ∧
    (storeListH h ref).1.read (storeListH h ref).2 = h.read ref ∧
    ((storeListH h ref).1.write (storeListH h ref).2 xs).read ref = h.read ref ∧
    (storeListH ((storeListH h ref).1.write (storeListH h ref).2 xs) ref).1.read
        (storeListH ((storeListH h ref).1.write (storeListH h ref).2 xs) ref).2 =
      h.read ref ∧
    (storeListByH h ref m).2 ≠ ref ∧
    (storeListByH h ref m).1.read (storeListByH h ref m).2 = (h.read ref).filter m ∧
    ((storeListByH h ref m).1.write (storeListByH h ref m).2 ys).read ref =
      h.read ref := by
  have h1 : ref ≠ h.next := by omega
  have h2 : ¬ h.next = ref := by omega
  simp [storeListH, storeListByH, JSHeap.alloc, JSHeap.read, JSHeap.write, h1, h2]

/-- Sample heap for the C10 witness: one allocated array. -/
def sampleHeap : JSHeap Nat :=
  { next := 1, cells := fun _ => [5, 6] }

/-- Witness for C10 on the sample heap. -/
theorem list_returns_fresh_array_witness :
    0 < sampleHeap.next ∧
    (storeListH sampleHeap 0).2 ≠ 0 ∧
    ((storeListH sampleHeap 0).1.write (storeListH sampleHeap 0).2 [9]).read 0 =
      [5, 6] ∧
    ((storeListByH sampleHeap 0 (fun n => n == 5)).1.read
        (storeListByH sampleHeap 0 (fun n => n == 5)).2) = [5] :=
  ⟨by decide,
   (list_returns_fresh_array sampleHeap 0 (fun n => n == 5) [9] [] (by decide)).1,
   (list_returns_fresh_array sampleHeap 0 (fun n => n == 5) [9] [] (by decide)).2.2.1,
   (list_returns_fresh_array sampleHeap 0 (fun n => n == 5) [9] [] (by decide)).2.2.2.2.2.1⟩

/-- Claim C5: for every selector whose function returns a pending
asynchronous result (a Promise), evaluating the selector fails hard by
throwing the async-selector misuse error (`SelectorCantBeAsyncError` in
the source, `AsyncSelectorError` in the spec) to the caller; the error
is never placed in the returned error slot and the declared fallback is
never substituted — the theorem holds for every declared fallback. -/
theorem select_async_fails_hard (app : ConnvyApp α) (sel : Selector α) (k : Nat)
    (hrun : sel.run (ConnvyApp.resolveReadOnly app) = .ret (.vPromise k)) :
    app.select sel = .error .selectorCantBeAsync := by
  simp [ConnvyApp.select, hrun, JSValue.isPromise]

/-- Selector returning a pending promise despite a declared fallback. -/
def asyncSelector : Selector Nat :=
  { stores := [0], fallback := some (.vNum 42), run := fun _ => .ret (.vPromise 0) }

/-- Witness for C5. -/
theorem select_async_fails_hard_witness :
    sampleApp.select asyncSelector = .error .selectorCantBeAsync :=
  select_async_fails_hard sampleApp asyncSelector 0 rfl

/-- Read-only clone of the sample store, as handed to selectors. -/
def roSample : ReadOnlyStoreInst Nat := readOnlyClone sampleStore

/-- Counterexample to claim C6 as stated: `replace` is one of the listed
mutating operations, but `ReadOnlyStoreInstanceImpl` does not override
it (nor `merge`), so invoking `replace` on the read-only variant
succeeds, changes the variant's records, and throws no read-only error. -/
theorem readonly_replace_not_blocked :
    (roSample.replace 0 9).2 = .ok 9 ∧
    (roSample.replace 0 9).1.toStoreInst.collection = [9, 2] ∧
    roSample.toStoreInst.collection = [1, 2] ∧
    ¬ (roSample.replace 0 9).1.toStoreInst.collection =
        roSample.toStoreInst.collection := by
  refine ⟨rfl, rfl, rfl, by decide⟩

/-- Claim C6 (amended): for each of the five mutating operations the
read-only variant actually overrides — `create`, `update`,
`updateAllWhere`, `delete`, `deleteAllWhere` — the operation leaves the
store's records unchanged and fails with the read-only error naming the
store and method, and selector evaluation re-signals that error as
`AttemptingToWriteFromSelectorError` (the spec's
`SelectorWroteToStoreError`) naming the store and the method, thrown to
the caller rather than returned in the error slot; `replace` and `merge`
are not overridden. -/
theorem readonly_overrides_and_select_resignal (r : ReadOnlyStoreInst α) (e : α)
    (i : Nat) (u : α → α) (m : α → Bool) :
    r.create e = (r, .error (.storeIsReadOnly r.toStoreInst.storeName "create")) ∧
    r.update i u = (r, .error (.storeIsReadOnly r.toStoreInst.storeName "update")) ∧
    r.updateAllWhere m u =
      (r, .error (.storeIsReadOnly r.toStoreInst.storeName "updateAllWhere")) ∧
    r.del i = (r, .error (.storeIsReadOnly r.toStoreInst.storeName "delete")) ∧
    r.deleteAllWhere m =
      (r, .error (.storeIsReadOnly r.toStoreInst.storeName "deleteAllWhere")) ∧
    (∀ (app : ConnvyApp α) (sel : Selector α) (n meth : String),
        sel.run (ConnvyApp.resolveReadOnly app) = .threw (.vErr (.storeIsReadOnly n meth)) →
        app.select sel = .error (.attemptingToWriteFromSelector n meth)) := by
  refine ⟨rfl, rfl, rfl, rfl, rfl, ?_⟩
  intro app sel n meth hrun
  simp [ConnvyApp.select, hrun, JSValue.isPromise, JSValue.asReadOnlyErr]

/-- Selector whose function writes through the read-only view: the view
throws the read-only error, which the selector body does not catch. -/
def writingSelector : Selector Nat :=
  { stores := [0], fallback := some (.vNum 42),
    run := fun _ => .threw (.vErr (.storeIsReadOnly "todos" "update")) }

/-- Witness for C6 (amended). -/
theorem readonly_overrides_and_select_resignal_witness :
    roSample.create 7 = (roSample, .error (.storeIsReadOnly "todos" "create")) ∧
    sampleApp.select writingSelector =
      .error (.attemptingToWriteFromSelector "todos" "update") :=
  ⟨(readonly_overrides_and_select_resignal roSample 7 0 (fun n => n)
      (fun _ => true)).1,
   (readonly_overrides_and_select_resignal roSample 7 0 (fun n => n)
      (fun _ => true)).2.2.2.2.2 sampleApp writingSelector "todos" "update" rfl⟩

/-- Selector throwing the falsy value 0 despite a declared fallback. -/
def fallbackSelector : Selector Nat :=
  { stores := [0], fallback := some (.vNum 42), run := fun _ => .threw (.vNum 0) }

/-- Counterexample to claim C7 as stated: the fallback-substitution
guard is `if (error && selector.fallback !== undefined)`, so a selector
that throws the falsy value 0 with a declared fallback of 42 yields the
thrown 0 in the error slot with a null result instead of the fallback. -/
theorem select_falsy_throw_skips_fallback :
    sampleApp.select fallbackSelector = .ok (.vNull, .vNum 0) ∧
    sampleApp.select fallbackSelector ≠ .ok (.vNum 42, .vNull) := by
  exact ⟨rfl, by decide⟩

/-- Claim C7 (amended): for every selector whose function throws a value
that is not a misuse error, evaluation returns that value in the error
slot with a null result; if the selector declared a fallback and the
thrown value is truthy, evaluation instead returns the fallback with a
null error; a falsy thrown value (null, undefined, false, 0, empty
string) stays in the error slot without fallback substitution; if the
function returns normally with a non-Promise value, that value is
returned with a null error. -/
theorem select_error_slot_and_fallback (app : ConnvyApp α) (sel : Selector α) :
    (∀ v : JSValue,
        sel.run (ConnvyApp.resolveReadOnly app) = .threw v →
        v.asReadOnlyErr = none →
        (sel.fallback = none → app.select sel = .ok (.vNull, v)) ∧
        (∀ fb, sel.fallback = some fb → v.truthy = true →
            app.select sel = .ok (fb, .vNull)) ∧
        (v.truthy = false → app.select sel = .ok (.vNull, v))) ∧
    (∀ v : JSValue,
        sel.run (ConnvyApp.resolveReadOnly app) = .ret v →
        v.isPromise = false →
        app.select sel = .ok (v, .vNull)) := by
  constructor
  · intro v hrun hro
    refine ⟨?_, ?_, ?_⟩
    · intro hfb
      simp [ConnvyApp.select, hrun, hro, hfb, JSValue.isPromise]
    · intro fb hfb htr
      simp [ConnvyApp.select, hrun, hro, hfb, htr, JSValue.isPromise]
    · intro htr
      cases hfb : sel.fallback with
      | none => simp [ConnvyApp.select, hrun, hro, hfb, htr, JSValue.isPromise]
      | some fb => simp [ConnvyApp.select, hrun, hro, hfb, htr, JSValue.isPromise]
  · intro v hrun hp
    cases hfb : sel.fallback <;>
      simp [ConnvyApp.select, hrun, hfb, hp, JSValue.asReadOnlyErr, JSValue.truthy]

/-- Selector throwing a truthy value with a declared fallback. -/
def throwingSelector : Selector Nat :=
  { stores := [0], fallback := some (.vNum 42), run := fun _ => .threw (.vStr "boom") }

/-- Selector throwing a truthy value without a fallback. -/
def throwingSelectorNoFb : Selector Nat :=
  { stores := [0], fallback := none, run := fun _ => .threw (.vStr "boom") }

/-- Selector returning a plain value. -/
def returningSelector : Selector Nat :=
  { stores := [0], fallback := none, run := fun _ => .ret (.vNum 7) }

/-- Witness for C7 (amended): truthy throw with fallback substitutes the
fallback; truthy throw without fallback lands in the error slot; falsy
throw stays in the error slot despite the fallback; a normal return is
handed back with a null error. -/
theorem select_error_slot_and_fallback_witness :
    sampleApp.select throwingSelector = .ok (.vNum 42, .vNull) ∧
    sampleApp.select throwingSelectorNoFb = .ok (.vNull, .vStr "boom") ∧
    sampleApp.select fallbackSelector = .ok (.vNull, .vNum 0) ∧
    sampleApp.select returningSelector = .ok (.vNum 7, .vNull) :=
  ⟨((select_error_slot_and_fallback sampleApp throwingSelector).1
      (.vStr "boom") rfl rfl).2.1 (.vNum 42) rfl rfl,
   ((select_error_slot_and_fallback sampleApp throwingSelectorNoFb).1
      (.vStr "boom") rfl rfl).1 rfl,
   ((select_error_slot_and_fallback sampleApp fallbackSelector).1
      (.vNum 0) rfl rfl).2.2 rfl,
   (select_error_slot_and_fallback sampleApp returningSelector).2
      (.vNum 7) rfl rfl⟩

/-- Claim C1: while action A is ongoing, `runAction(B)` for any B fails
synchronously with `OngoingActionError` carrying both actions' name and
params and leaves all state (store instances, action state record,
ongoing-action marker) untouched; after A settles by success, failure
(both covered by the quantified settlement outcome) or cancel, the
marker is cleared and `runAction(B)` passes the ongoing guard. -/
theorem run_serialized_by_ongoing_marker (app : ConnvyApp α) (oA B : ActionInst)
    (body : (Nat → StoreInst α) → (Nat → StoreInst α) × Option JSValue)
    (clones : Nat → StoreInst α) (failure : Option JSValue) (arg : CancelArg)
    (hA : app.ongoingAction = some oA) :
    app.runAction B body =
      (app, some (.vErr (.ongoingActionError oA.name oA.params B.name B.params))) ∧
    (app.settleAction oA clones failure).1.ongoingAction = none ∧
    ((app.settleAction oA clones failure).1.runActionStart B).isOk = true ∧
    (shouldCancelAction arg oA.name = true →
        (cancelViaHook app arg).ongoingAction = none ∧
        ((cancelViaHook app arg).runActionStart B).isOk = true) := by
  refine ⟨?_, ?_, ?_, ?_⟩
  · simp [ConnvyApp.runAction, ConnvyApp.runActionStart, hA]
  · cases failure <;> simp [ConnvyApp.settleAction, hA]
  · cases failure <;>
      simp [ConnvyApp.settleAction, hA, ConnvyApp.runActionStart, Except.isOk, Except.toBool]
  · intro hc
    constructor
    · simp [cancelViaHook, ConnvyApp.cancelAction, hA, hc]
    · simp [cancelViaHook, ConnvyApp.cancelAction, hA, hc,
        ConnvyApp.runActionStart, Except.isOk, Except.toBool]

/-- Sample action invocation over store 0. -/
def runningAction : ActionInst :=
  { id := 1, name := "createTodo", params := [.str "A"], stores := [0] }

/-- A second, distinct action invocation over store 0. -/
def otherAction : ActionInst :=
  { id := 2, name := "other", params := [], stores := [0] }

/-- App state in which `runningAction` has started and not settled. -/
def busyApp : ConnvyApp Nat := ConnvyApp.startedApp sampleApp runningAction

/-- Witness for C1. -/
theorem run_serialized_by_ongoing_marker_witness :
    busyApp.runAction otherAction (fun cl => (cl, none)) =
      (busyApp,
       some (.vErr (.ongoingActionError "createTodo" [.str "A"] "other" []))) ∧
    (busyApp.settleAction runningAction (fun _ => sampleStore) none).1.ongoingAction =
      none ∧
    ((busyApp.settleAction runningAction (fun _ => sampleStore) none).1.runActionStart
        otherAction).isOk = true ∧
    (cancelViaHook busyApp .all).ongoingAction = none :=
  ⟨(run_serialized_by_ongoing_marker busyApp runningAction otherAction
      (fun cl => (cl, none)) (fun _ => sampleStore) none .all rfl).1,
   (run_serialized_by_ongoing_marker busyApp runningAction otherAction
      (fun cl => (cl, none)) (fun _ => sampleStore) none .all rfl).2.1,
   (run_serialized_by_ongoing_marker busyApp runningAction otherAction
      (fun cl => (cl, none)) (fun _ => sampleStore) none .all rfl).2.2.1,
   ((run_serialized_by_ongoing_marker busyApp runningAction otherAction
      (fun cl => (cl, none)) (fun _ => sampleStore) none .all rfl).2.2.2 rfl).1⟩

/-- Claim C2: for every action whose function fails (synchronous throw,
or the pending result later rejecting — both reach settlement with a
failure outcome) after writing to its cloned dependency stores, every
live store's record list is unchanged at settlement (the clones are
discarded, no merge), the Action State Record is set to ERROR with the
thrown value, the ongoing-action marker is cleared, and the error is
re-surfaced to the `runAction` caller. -/
theorem failed_action_rolls_back (app0 : ConnvyApp α) (a : ActionInst)
    (body : (Nat → StoreInst α) → (Nat → StoreInst α) × Option JSValue)
    (clones2 : Nat → StoreInst α) (e : JSValue)
    (h0 : app0.ongoingAction = none)
    (hbody : body (ConnvyApp.startedClones app0 a) = (clones2, some e)) :
    (app0.runAction a body).2 = some e ∧
    (∀ sid, ((app0.runAction a body).1.stores sid).collection =
        (app0.stores sid).collection) ∧
    (app0.runAction a body).1.actionStates.head? =
      some { state := .err, actionName := a.name, errorVal := some e } ∧
    (app0.runAction a body).1.ongoingAction = none := by
  refine ⟨?_, ?_, ?_, ?_⟩
  · simp [ConnvyApp.runAction, ConnvyApp.runActionStart, h0, hbody,
      ConnvyApp.settleAction, ConnvyApp.startedApp]
  · intro sid
    by_cases hmem : sid ∈ a.stores <;>
      simp [ConnvyApp.runAction, ConnvyApp.runActionStart, h0, hbody,
        ConnvyApp.settleAction, ConnvyApp.startedApp, ConnvyApp.unlockStores,
        ConnvyApp.lockStores, StoreInst.lock, StoreInst.unlock, hmem]
  · simp [ConnvyApp.runAction, ConnvyApp.runActionStart, h0, hbody,
      ConnvyApp.settleAction, ConnvyApp.startedApp, updateActionState_head]
  · simp [ConnvyApp.runAction, ConnvyApp.runActionStart, h0, hbody,
      ConnvyApp.settleAction, ConnvyApp.startedApp]

/-- Action body that writes to its cloned store and then throws. -/
def bodyWriteThenFail : (Nat → StoreInst Nat) → (Nat → StoreInst Nat) × Option JSValue :=
  fun cl =>
    ((fun sid => if sid = 0 then ((cl 0).create 50).1 else cl sid),
     some (.vStr "Oh no I threw!"))

/-- Witness for C2: the body creates a record in its clone and throws;
the live store still holds its pre-action records, the record row shows
ERROR with the thrown value, the marker is cleared, and the error is
re-surfaced. -/
theorem failed_action_rolls_back_witness :
    (sampleApp.runAction runningAction bodyWriteThenFail).2 =
      some (.vStr "Oh no I threw!") ∧
    ((sampleApp.runAction runningAction bodyWriteThenFail).1.stores 0).collection =
      [1, 2] ∧
    (sampleApp.runAction runningAction bodyWriteThenFail).1.actionStates.head? =
      some { state := .err, actionName := "createTodo",
             errorVal := some (.vStr "Oh no I threw!") } ∧
    (sampleApp.runAction runningAction bodyWriteThenFail).1.ongoingAction = none :=
  ⟨(failed_action_rolls_back sampleApp runningAction bodyWriteThenFail
      (bodyWriteThenFail (ConnvyApp.startedClones sampleApp runningAction)).1
      (.vStr "Oh no I threw!") rfl rfl).1,
   (failed_action_rolls_back sampleApp runningAction bodyWriteThenFail
      (bodyWriteThenFail (ConnvyApp.startedClones sampleApp runningAction)).1
      (.vStr "Oh no I threw!") rfl rfl).2.1 0,
   (failed_action_rolls_back sampleApp runningAction bodyWriteThenFail
      (bodyWriteThenFail (ConnvyApp.startedClones sampleApp runningAction)).1
      (.vStr "Oh no I threw!") rfl rfl).2.2.1,
   (failed_action_rolls_back sampleApp runningAction bodyWriteThenFail
      (bodyWriteThenFail (ConnvyApp.startedClones sampleApp runningAction)).1
      (.vStr "Oh no I threw!") rfl rfl).2.2.2⟩

/-- Claim C4: with an ongoing action and a cancel invocation whose
filter is absent or matches the ongoing action's name, the Action State
Record transitions to CANCELED naming that action and the marker is
cleared immediately, so a new `runAction` passes the ongoing guard right
away; and the canceled action's eventual settlement — whatever its
outcome — performs no commit and no state-record update, leaving the
live stores' record lists as they were before the action ran. -/
theorem cancel_clears_marker_and_voids_settlement (app0 : ConnvyApp α)
    (a B : ActionInst) (arg : CancelArg) (clones2 : Nat → StoreInst α)
    (failure : Option JSValue)
    (h0 : app0.ongoingAction = none)
    (hm : shouldCancelAction arg a.name = true) :
    app0.runActionStart a = .ok (ConnvyApp.startedApp app0 a, ConnvyApp.startedClones app0 a) ∧
    (cancelViaHook (ConnvyApp.startedApp app0 a) arg).actionStates.head? =
      some { state := .canceled, actionName := a.name, errorVal := none } ∧
    (cancelViaHook (ConnvyApp.startedApp app0 a) arg).ongoingAction = none ∧
    ((cancelViaHook (ConnvyApp.startedApp app0 a) arg).runActionStart B).isOk = true ∧
    ((cancelViaHook (ConnvyApp.startedApp app0 a) arg).settleAction a clones2 failure) =
      (cancelViaHook (ConnvyApp.startedApp app0 a) arg, none) ∧
    (∀ sid,
        (((cancelViaHook (ConnvyApp.startedApp app0 a) arg).settleAction a clones2
            failure).1.stores sid).collection = (app0.stores sid).collection) := by
  refine ⟨?_, ?_, ?_, ?_, ?_, ?_⟩
  · simp [ConnvyApp.runActionStart, h0]
  · simp [cancelViaHook, ConnvyApp.cancelAction, ConnvyApp.startedApp, hm,
      updateActionState_head]
  · simp [cancelViaHook, ConnvyApp.cancelAction, ConnvyApp.startedApp, hm]
  · simp [cancelViaHook, ConnvyApp.cancelAction, ConnvyApp.startedApp, hm,
      ConnvyApp.runActionStart, Except.isOk, Except.toBool]
  · simp [cancelViaHook, ConnvyApp.cancelAction, ConnvyApp.startedApp, hm,
      ConnvyApp.settleAction]
  · intro sid
    by_cases hmem : sid ∈ a.stores <;>
      simp [cancelViaHook, ConnvyApp.cancelAction, ConnvyApp.startedApp, hm,
        ConnvyApp.settleAction, ConnvyApp.lockStores, StoreInst.lock, hmem]

/-- Witness for C4: cancel the sample ongoing action with a matching
one-action filter, then observe its stale settlement is a no-op. -/
theorem cancel_clears_marker_and_voids_settlement_witness :
    (cancelViaHook busyApp (.one "createTodo")).actionStates.head? =
      some { state := .canceled, actionName := "createTodo", errorVal := none } ∧
    (cancelViaHook busyApp (.one "createTodo")).ongoingAction = none ∧
    ((cancelViaHook busyApp (.one "createTodo")).runActionStart otherAction).isOk =
      true ∧
    ((cancelViaHook busyApp (.one "createTodo")).settleAction runningAction
        (fun _ => sampleStore) none) =
      (cancelViaHook busyApp (.one "createTodo"), none) ∧
    (((cancelViaHook busyApp (.one "createTodo")).settleAction runningAction
        (fun _ => sampleStore) none).1.stores 0).collection = [1, 2] :=
  ⟨(cancel_clears_marker_and_voids_settlement sampleApp runningAction otherAction
      (.one "createTodo") (fun _ => sampleStore) none rfl rfl).2.1,
   (cancel_clears_marker_and_voids_settlement sampleApp runningAction otherAction
      (.one "createTodo") (fun _ => sampleStore) none rfl rfl).2.2.1,
   (cancel_clears_marker_and_voids_settlement sampleApp runningAction otherAction
      (.one "createTodo") (fun _ => sampleStore) none rfl rfl).2.2.2.1,
   (cancel_clears_marker_and_voids_settlement sampleApp runningAction otherAction
      (.one "createTodo") (fun _ => sampleStore) none rfl rfl).2.2.2.2.1,
   (cancel_clears_marker_and_voids_settlement sampleApp runningAction otherAction
      (.one "createTodo") (fun _ => sampleStore) none rfl rfl).2.2.2.2.2 0⟩

/-- While action `a` is ongoing and its dependency stores are locked,
one interleaved operation that does not settle `a` keeps the marker on
`a` and leaves every dependency store instance untouched: an outside
write hits the lock, a non-matching cancel is a no-op, a second run is
rejected by the ongoing guard, and a stale settlement fails the
marker-identity check. -/
theorem stepInterim_preserves (app : ConnvyApp α) (a : ActionInst)
    (op : InterimOp α) (ha : app.ongoingAction = some a)
    (hop : PreservesAction a op)
    (hlocked : ∀ sid ∈ a.stores, (app.stores sid).locked = true) :
    (stepInterim app op).ongoingAction = some a ∧
    ∀ sid ∈ a.stores, (stepInterim app op).stores sid = app.stores sid := by
  cases op with
  | write sid' w =>
    refine ⟨by simp [stepInterim, ha], ?_⟩
    intro sid hsid
    by_cases h : sid = sid'
    · subst h
      simp [stepInterim, applyWrite_locked _ w (hlocked sid hsid)]
    · simp [stepInterim, h]
  | cancelOp arg =>
    have hc : shouldCancelAction arg a.name = false := hop
    constructor
    · simp [stepInterim, cancelViaHook, ConnvyApp.cancelAction, ha, hc]
    · intro sid _
      simp [stepInterim, cancelViaHook, ConnvyApp.cancelAction, ha, hc]
  | runOther b body =>
    constructor
    · simp [stepInterim, ConnvyApp.runAction, ConnvyApp.runActionStart, ha]
    · intro sid _
      simp [stepInterim, ConnvyApp.runAction, ConnvyApp.runActionStart, ha]
  | settleOther b clones failure =>
    have hb : b ≠ a := hop
    have hab : ¬ a = b := fun h => hb h.symm
    constructor
    · simp [stepInterim, ConnvyApp.settleAction, ha, hab]
    · intro sid _
      simp [stepInterim, ConnvyApp.settleAction, ha, hab]

/-- The step invariant extended over any sequence of interleaved
operations that do not settle `a`. -/
theorem runInterim_preserves (a : ActionInst) (ops : List (InterimOp α)) :
    ∀ app : ConnvyApp α, app.ongoingAction = some a →
    (∀ sid ∈ a.stores, (app.stores sid).locked = true) →
    (∀ op ∈ ops, PreservesAction a op) →
    (runInterim app ops).ongoingAction = some a ∧
    ∀ sid ∈ a.stores, (runInterim app ops).stores sid = app.stores sid := by
  induction ops with
  | nil =>
    intro app ha _ _
    exact ⟨ha, fun sid _ => rfl⟩
  | cons op rest ih =>
    intro app ha hlocked hops
    have hstep := stepInterim_preserves app a op ha (hops op (List.mem_cons_self op rest)) hlocked
    have hlocked' : ∀ sid ∈ a.stores, ((stepInterim app op).stores sid).locked = true := by
      intro sid hsid
      rw [hstep.2 sid hsid]
      exact hlocked sid hsid
    have hrest := ih (stepInterim app op) hstep.1 hlocked'
      (fun o ho => hops o (List.mem_cons_of_mem op ho))
    exact ⟨hrest.1, fun sid hsid => (hrest.2 sid hsid).trans (hstep.2 sid hsid)⟩

/-- Claim C3: between the start of an action A that depends on store S
and A's settlement (operations that would settle A — a matching cancel
or A's own settlement callback — are excluded from the window), every
read of the live S by an outside caller returns the pre-A record list,
and every write attempt to S by an outside caller fails with
`LockedError` naming the store and changes nothing; A's own function
works on an unlocked private clone carrying a copy of the pre-A records,
so its writes land only via that clone at commit. -/
theorem ongoing_action_isolates_dependency_stores (app0 : ConnvyApp α)
    (a : ActionInst) (ops : List (InterimOp α)) (sid : Nat)
    (h0 : app0.ongoingAction = none) (hsid : sid ∈ a.stores)
    (hops : ∀ op ∈ ops, PreservesAction a op) :
    app0.runActionStart a =
      .ok (ConnvyApp.startedApp app0 a, ConnvyApp.startedClones app0 a) ∧
    (ConnvyApp.startedClones app0 a sid).collection = (app0.stores sid).collection ∧
    (ConnvyApp.startedClones app0 a sid).locked = false ∧
    (runInterim (ConnvyApp.startedApp app0 a) ops).ongoingAction = some a ∧
    ((runInterim (ConnvyApp.startedApp app0 a) ops).stores sid).collection =
      (app0.stores sid).collection ∧
    (∀ w : WriteOp α,
        applyWrite ((runInterim (ConnvyApp.startedApp app0 a) ops).stores sid) w =
          ((runInterim (ConnvyApp.startedApp app0 a) ops).stores sid,
           .error (.storeIsLocked ((app0.stores sid).storeName)))) := by
  have hstartOngoing : (ConnvyApp.startedApp app0 a).ongoingAction = some a := rfl
  have hlocked : ∀ s ∈ a.stores, ((ConnvyApp.startedApp app0 a).stores s).locked = true := by
    intro s hs
    simp [ConnvyApp.startedApp, ConnvyApp.lockStores, hs, StoreInst.lock]
  have hpres := runInterim_preserves a ops (ConnvyApp.startedApp app0 a)
    hstartOngoing hlocked hops
  refine ⟨?_, ?_, ?_, hpres.1, ?_, ?_⟩
  · simp [ConnvyApp.runActionStart, h0]
  · simp [ConnvyApp.startedClones, ConnvyApp.cloneStores, ConnvyApp.lockStores, hsid,
      StoreInst.clone, StoreInst.merge, StoreInst.newInst, StoreInst.assertNotLocked,
      StoreInst.list, StoreInst.lock]
  · simp [ConnvyApp.startedClones, ConnvyApp.cloneStores, ConnvyApp.lockStores, hsid,
      StoreInst.clone, StoreInst.merge, StoreInst.newInst, StoreInst.assertNotLocked,
      StoreInst.lock]
  · rw [hpres.2 sid hsid]
    simp [ConnvyApp.startedApp, ConnvyApp.lockStores, hsid, StoreInst.lock]
  · intro w
    rw [hpres.2 sid hsid, applyWrite_locked _ w (hlocked sid hsid)]
    simp [ConnvyApp.startedApp, ConnvyApp.lockStores, hsid, StoreInst.lock]

/-- Interleaved operations for the C3 witness: an outside write to the
locked store, a cancel that names a different action, a second run that
is rejected, and a stale settlement of a different action instance. -/
def interimOps : List (InterimOp Nat) :=
  [ .write 0 (.wCreate 7),
    .cancelOp (.one "somethingElse"),
    .runOther otherAction (fun cl => (cl, none)),
    .settleOther otherAction (fun _ => sampleStore) none ]

/-- Witness for C3 on the sample app. -/
theorem ongoing_action_isolates_dependency_stores_witness :
    (0 ∈ runningAction.stores) ∧
    (ConnvyApp.startedClones sampleApp runningAction 0).collection = [1, 2] ∧
    (runInterim (ConnvyApp.startedApp sampleApp runningAction) interimOps).ongoingAction =
      some runningAction ∧
    ((runInterim (ConnvyApp.startedApp sampleApp runningAction) interimOps).stores 0).collection =
      [1, 2] ∧
    applyWrite
        ((runInterim (ConnvyApp.startedApp sampleApp runningAction) interimOps).stores 0)
        (.wCreate 7) =
      ((runInterim (ConnvyApp.startedApp sampleApp runningAction) interimOps).stores 0,
       .error (.storeIsLocked "todos")) := by
  have hops : ∀ op ∈ interimOps, PreservesAction runningAction op := by
    intro op hop
    simp only [interimOps, List.mem_cons, List.not_mem_nil, or_false] at hop
    rcases hop with rfl | rfl | rfl | rfl
    · trivial
    · show shouldCancelAction (.one "somethingElse") runningAction.name = false
      decide
    · trivial
    · show otherAction ≠ runningAction
      decide
  have h := ongoing_action_isolates_dependency_stores sampleApp runningAction
    interimOps 0 rfl (by decide) hops
  exact ⟨by decide, h.2.1, h.2.2.2.1, h.2.2.2.2.1, h.2.2.2.2.2 (.wCreate 7)⟩

end Connvy
